import Mathlib

/-!
# liboculus: `SimplePingResult` construction and validation

A shallow embedding of `src/lib/SimplePingResult.cpp`:

* `SimplePingResult.construct` is the constructor (lines 36-76), which builds the
  bearing, gain and image views over the byte buffer;
* `SimplePingResult.valid` is `SimplePingResult::valid()` (lines 78-104).

The headers of the library (`Oculus.h`, `DataTypes.h`, `MessageHeader.h`, `ImageData.h`,
`GainData.h`, `BearingData.h`) are not among the sources.  What the two functions take from
them is either a parameter (`Layout`) or a definition marked `Modelled from the spec`.

Machine integers follow the LP64 data model the library is built for: `int` is a signed
32-bit integer and `size_t` an unsigned 64-bit integer.  They are embedded as `Int`/`Nat`
with explicit reductions modulo `2 ^ 32`, `2 ^ 64` and `2 ^ 16`.
-/

namespace liboculus

/-! ## Machine integers -/

/-- Conversion of an unsigned 32-bit value to `int` (two's complement). -/
def toInt32 (x : Nat) : Int :=
  if x % 2 ^ 32 < 2 ^ 31 then ((x % 2 ^ 32 : Nat) : Int)
  else ((x % 2 ^ 32 : Nat) : Int) - 2 ^ 32

/-- Conversion of an `int` to `size_t` (reduction modulo `2 ^ 64`). -/
def toSizeT (i : Int) : Nat := (i % 2 ^ 64).toNat

/-- Predicate: the value fits an unsigned 32-bit field. -/
def IsU32 (x : Nat) : Prop := x < 2 ^ 32

instance (x : Nat) : Decidable (IsU32 x) := by unfold IsU32; infer_instance

/-- A byte of the buffer. -/
abbrev Byte := Fin 256

/-! ## Declarations taken from outside the sources -/

/-- What the two functions take from outside `src/`: constants and field positions of
`Oculus.h`, the one value of `SizeOfDataSize` that the spec does not give, and whether the
build defines `NDEBUG`.  None of them is among the sources, so all are parameters. -/
structure Layout where
  /-- The value of `sizeof(OculusMessageHeader)`. -/
  sizeofOculusMessageHeader : Nat
  /-- The value of `sizeof(OculusSimplePingResult)`. -/
  sizeofOculusSimplePingResult : Nat
  /-- The magic identifier `OCULUS_CHECK_ID`. -/
  checkId : Nat
  /-- The byte position of `flags` in `OculusSimpleFireMessage`, the byte that
  `fireMsg()->flags` reads. -/
  flagsOffset : Nat
  /-- The byte position just after the last of the fields of the ping header that the
  constructor reads (`nBeams`, `imageOffset`, `dataSize`, `imageSize`, `nRanges`). -/
  pingFieldsEnd : Nat
  /-- Whether the build defines `NDEBUG`, which compiles `assert` out. -/
  ndebug : Bool
  /-- What `SizeOfDataSize` yields for a value of the data-size field outside the known
  encodings: neither the sources nor the spec say. -/
  unknownDataSizeBytes : Nat
  deriving DecidableEq, Repr

/-- The data-size field of a ping.  `dataSize8Bit`, `dataSize16Bit` and `dataSize32Bit` are the
enumerators the sources name (`tools/oculus_client.cpp`); `other raw` is any other value of the
field on the wire. -/
inductive DataSizeType where
  | dataSize8Bit
  | dataSize16Bit
  | dataSize32Bit
  | other (raw : Nat)
  deriving DecidableEq, Repr

/-- Modelled from the spec: `SizeOfDataSize` of `DataTypes.h`, which is not among the sources.
"8/16/32-bit → 1/2/4 bytes".  For a value outside the known set the spec gives no width: the
helper yields the parameter `L.unknownDataSizeBytes`, whatever it is. -/
def SizeOfDataSize (L : Layout) : DataSizeType → Nat
  | .dataSize8Bit => 1
  | .dataSize16Bit => 2
  | .dataSize32Bit => 4
  | .other _ => L.unknownDataSizeBytes

/-- Predicate: the data-size field is one of the known encodings. -/
def DataSizeType.known : DataSizeType → Bool
  | .other _ => false
  | _ => true

/-- What the member functions read of a received buffer: `_buffer` itself (a byte vector) and
the values of the fields of the structs overlaid on it (`msg()`, `fireMsg()`, `ping()`).
Following the wire layout of the spec, `nRanges`, `nBeams`, `imageOffset` and `imageSize` are
unsigned 32-bit fields (`Frame.WellTyped`). -/
structure Frame where
  /-- The bytes of `_buffer`. -/
  buffer : List Byte
  /-- The magic identifier of the common header: `msg()->oculusId`. -/
  oculusId : Nat
  /-- Modelled from the spec: the value of `packetSize()` (`MessageHeader.h` is not among the
  sources), "declaredSize: u32 (total frame size the sender claims)". -/
  packetSize : Nat
  /-- The gain-present flag: `fireMsg()->flags`, read through `getSendGain()`. -/
  sendGain : Bool
  nRanges : Nat
  nBeams : Nat
  imageOffset : Nat
  imageSize : Nat
  dataSize : DataSizeType
  deriving DecidableEq, Repr

/-- The length `_buffer->size()`. -/
def Frame.size (f : Frame) : Nat := f.buffer.length

/-- Modelled from the spec: the widths of the fields of the ping header (`Oculus.h` is not
among the sources).  The wire layout gives `nRanges`, `nBeams`, `imageOffset` and `imageSize`
4 bytes each. -/
def Frame.WellTyped (f : Frame) : Prop :=
  IsU32 f.nRanges ∧ IsU32 f.nBeams ∧ IsU32 f.imageOffset ∧ IsU32 f.imageSize

instance (f : Frame) : Decidable f.WellTyped := by unfold Frame.WellTyped; infer_instance

/-- Modelled from the spec: `MessageHeader::valid()` of `MessageHeader.h`, which is not among the
sources.  "magicId must equal the protocol's fixed constant or the frame is rejected". -/
def MessageHeader.valid (L : Layout) (f : Frame) : Bool :=
  f.oculusId == L.checkId

/-! ## The views -/

/-- The bearing view as the constructor builds it: a base position in the buffer (a byte
offset) and an element count. -/
structure BearingData where
  data : Nat
  nBeams : Nat
  deriving DecidableEq, Repr

/-- The image view as the constructor builds it, argument by argument. -/
structure ImageData where
  data : Nat
  imageSize : Nat
  nRanges : Nat
  nBeams : Nat
  dataSize : Nat
  stride : Nat
  offset : Nat
  deriving DecidableEq, Repr

/-- The gain view as the constructor builds it, argument by argument. -/
structure GainData where
  data : Nat
  imageSize : Nat
  stride : Nat
  nRanges : Nat
  deriving DecidableEq, Repr

/-- Modelled from the spec: the default-constructed `GainData_t` (`_gains()`), of `GainData.h`,
not among the sources.  The gain view is "present only when the gain-present flag is set": the
default view has no element. -/
def GainData.empty : GainData := ⟨0, 0, 0, 0⟩

/-- Modelled from the spec: the five-argument constructor of `ImageData` (`ImageData.h`, not
among the sources).  "If gain-absent, rows are contiguous with no header and ImageView strides by
`sampleWidthBytes × beamCount`". -/
def ImageData.contiguous (data imageSize nRanges nBeams dataSize : Nat) : ImageData :=
  ⟨data, imageSize, nRanges, nBeams, dataSize, dataSize * nBeams, 0⟩

/-- Modelled from the spec: the length of the gain view (`GainData.h` is not among the sources).
"Length = rangeBinCount". -/
def GainData.size (g : GainData) : Nat := g.nRanges

/-- Modelled from the spec: the byte position of gain element `i` (`GainData.h` is not among the
sources).  "GainView strides by `rowStrideBytes` per element". -/
def GainData.position (g : GainData) (i : Nat) : Nat := g.data + i * g.stride

/-- Modelled from the spec: the byte position of the first byte of image row `r`
(`ImageData.h` is not among the sources): "each row offset by rowStrideBytes from the
previous". -/
def ImageData.rowStart (im : ImageData) (r : Nat) : Nat := im.data + r * im.stride

/-- Modelled from the spec: the byte position of sample `(r, b)` of the image view: "each row
offset by rowStrideBytes from the previous, with rowHeaderBytes skipped at the start of each
row". -/
def ImageData.samplePos (im : ImageData) (r b : Nat) : Nat :=
  im.rowStart r + im.offset + b * im.dataSize

/-! ## `SimplePingResult` -/

/-- How a call can end without returning: a read past the end of the buffer (undefined
behaviour, a memory fault on the empty buffer; the embedding stops there), the `assert` of the
constructor, or the `CHECK` of `valid()` (g3log: a failed `CHECK` is fatal). -/
inductive Fault where
  | readPastEnd
  | assertFailed
  | checkFailed
  deriving DecidableEq, Repr

/-- The outcome of a call: a returned value, or a stop of the process. -/
inductive Outcome (α : Type) where
  | returned (a : α)
  | fatal (why : Fault)
  deriving DecidableEq, Repr

/-- The members of a constructed `SimplePingResult`. -/
structure SimplePingResult where
  frame : Frame
  flagsSendGain : Bool
  bearings : BearingData
  gains : GainData
  image : ImageData
  deriving DecidableEq, Repr

/-- The row stride of the gain-present branch, `const uint16_t strideBytes =
SizeOfDataSize(ping()->dataSize)*ping()->nBeams + offsetBytes;` (line 56): the sum is narrowed
to 16 bits. -/
def strideBytes (L : Layout) (f : Frame) (offsetBytes : Nat) : Nat :=
  (SizeOfDataSize L f.dataSize * f.nBeams + offsetBytes) % 2 ^ 16

/-- Lines 44-75 of the constructor: the views, recorded with the arguments the constructor
hands them, positions being byte offsets into the buffer. -/
def SimplePingResult.views (L : Layout) (f : Frame) : SimplePingResult :=
  -- bearingData = buffer->data() + sizeof(OculusSimplePingResult)
  let bearings : BearingData := ⟨L.sizeofOculusSimplePingResult, f.nBeams⟩
  -- imageData = buffer->data() + ping()->imageOffset
  let imageData := f.imageOffset
  if f.sendGain then
    let offsetBytes := 4
    let stride := strideBytes L f offsetBytes
    { frame := f
      flagsSendGain := f.sendGain
      bearings := bearings
      image := ⟨imageData, f.imageSize, f.nRanges, f.nBeams, SizeOfDataSize L f.dataSize,
                stride, offsetBytes⟩
      gains := ⟨imageData, f.imageSize, stride, f.nRanges⟩ }
  else
    { frame := f
      flagsSendGain := f.sendGain
      bearings := bearings
      image := ImageData.contiguous imageData f.imageSize f.nRanges f.nBeams
                (SizeOfDataSize L f.dataSize)
      gains := GainData.empty }

/-- The constructor `SimplePingResult::SimplePingResult` (lines 36-76), in the order of the
source: the initialiser list reads `fireMsg()->flags` from the buffer (line 38) before the
`assert` on the length (line 42), which a build with `NDEBUG` does not contain; the body then
reads the fields of the ping header and builds the views. -/
def SimplePingResult.construct (L : Layout) (f : Frame) : Outcome SimplePingResult :=
  -- _flags(fireMsg()->flags)
  if f.size ≤ L.flagsOffset then .fatal .readPastEnd
  -- assert(buffer->size() >= sizeof(OculusSimplePingResult));
  else if L.ndebug = false ∧ f.size < L.sizeofOculusSimplePingResult then .fatal .assertFailed
  -- ping()->nBeams, ping()->imageOffset, ping()->dataSize, ping()->imageSize, ping()->nRanges
  else if f.size < L.pingFieldsEnd then .fatal .readPastEnd
  else .returned (SimplePingResult.views L f)

/-- The local `num_pixels` of `valid()`: `int num_pixels = ping()->nRanges * ping()->nBeams;`,
an unsigned 32-bit product converted to `int`. -/
def numPixels (f : Frame) : Int := toInt32 (f.nRanges * f.nBeams % 2 ^ 32)

/-- The local `expected_size` of `valid()` (lines 89-93), a `size_t`: the sample width times
`num_pixels` converted to `size_t`, plus `sizeof(uint32_t) * nRanges` when gain is sent. -/
def expectedSize (L : Layout) (f : Frame) : Nat :=
  let expected_size := SizeOfDataSize L f.dataSize * toSizeT (numPixels f) % 2 ^ 64
  if f.sendGain then (expected_size + 4 * f.nRanges % 2 ^ 64) % 2 ^ 64 else expected_size

/-- The member function `SimplePingResult::valid()` (lines 78-104), on the frame the object
holds; `flags()` is the member the constructor copies from `fireMsg()->flags`.  The result is
the returned `bool`, or the fatal stop of the failed `CHECK`. -/
def SimplePingResult.valid (L : Layout) (f : Frame) : Outcome Bool :=
  if f.size < L.sizeofOculusMessageHeader then .returned false
  else if f.size < f.packetSize then .returned false
  else if !MessageHeader.valid L f then .returned false
  else if f.imageSize ≠ expectedSize L f then .returned false
  -- CHECK(ping()->imageOffset > sizeof(OculusSimplePingResult));
  else if ¬ (f.imageOffset > L.sizeofOculusSimplePingResult) then .fatal .checkFailed
  else .returned true

/-- The only way the sources evaluate `valid()`: on a constructed object. -/
def SimplePingResult.decode (L : Layout) (f : Frame) : Outcome Bool :=
  match SimplePingResult.construct L f with
  | .fatal why => .fatal why
  | .returned p => SimplePingResult.valid L p.frame

/-- The rejections of the spec's taxonomy that `valid()` can answer with, and acceptance. -/
inductive Verdict where
  | accepted
  | tooShort
  | badHeader
  | sizeMismatch
  deriving DecidableEq, Repr

/-- The function `valid()` once more, each `return false` named after the test that fires, in
the words of the spec: the two length tests of lines 79-80 are `TooShort`, the header test of
lines 83-86 is `BadHeader`, the image-size test of lines 95-100 is `SizeMismatch`. -/
def SimplePingResult.verdict (L : Layout) (f : Frame) : Outcome Verdict :=
  if f.size < L.sizeofOculusMessageHeader then .returned .tooShort
  else if f.size < f.packetSize then .returned .tooShort
  else if !MessageHeader.valid L f then .returned .badHeader
  else if f.imageSize ≠ expectedSize L f then .returned .sizeMismatch
  else if ¬ (f.imageOffset > L.sizeofOculusSimplePingResult) then .fatal .checkFailed
  else .returned .accepted

/-- The `bool` that `valid()` returns for a verdict. -/
def Verdict.toBool : Verdict → Bool
  | .accepted => true
  | _ => false

/-! ## The layout of the spec -/

/-- The row header of the spec: "rowHeaderBytes is 4 iff the gain-present flag is set, else
0". -/
def specRowHeaderBytes (f : Frame) : Nat := if f.sendGain then 4 else 0

/-- The row stride of the spec, in unbounded arithmetic: "rowStrideBytes = sampleWidthBytes ×
beamCount + rowHeaderBytes". -/
def specRowStrideBytes (L : Layout) (f : Frame) : Nat :=
  SizeOfDataSize L f.dataSize * f.nBeams + specRowHeaderBytes f

/-! ## Sample layouts and frames -/

/-- The packed layout with 16-bit `nRanges` and `nBeams`: a 16-byte common header, `flags` at
byte 20, `imageSize`, the last field the constructor reads, ending at byte 118, a 122-byte ping
header; the magic identifier is `0x4f53` and assertions are compiled in.  The value for unknown
encodings plays no part for a known encoding. -/
def sampleLayout : Layout :=
  { sizeofOculusMessageHeader := 16
    sizeofOculusSimplePingResult := 122
    checkId := 0x4f53
    flagsOffset := 20
    pingFieldsEnd := 118
    ndebug := false
    unknownDataSizeBytes := 0 }

/-- The packed layout with the 4-byte `nRanges` and `nBeams` of the spec's wire layout: the
ping header is 126 bytes long and `imageSize` ends at byte 122. -/
def wordLayout : Layout :=
  { sampleLayout with sizeofOculusSimplePingResult := 126, pingFieldsEnd := 122 }

/-- The layout `sampleLayout` in a build that defines `NDEBUG`. -/
def releaseLayout : Layout := { sampleLayout with ndebug := true }

/-- The layout `sampleLayout` with `SizeOfDataSize` yielding `w` for an unknown encoding. -/
def unknownLayout (w : Nat) : Layout := { sampleLayout with unknownDataSizeBytes := w }

/-- A frame with a zeroed buffer of `len` bytes and the given fields; the declared packet size
is the length of the buffer and the magic identifier is `0x4f53`. -/
def sampleFrame (len : Nat) (sendGain : Bool) (nRanges nBeams imageOffset imageSize : Nat)
    (dataSize : DataSizeType) : Frame :=
  { buffer := List.replicate len 0
    oculusId := 0x4f53
    packetSize := len
    sendGain := sendGain
    nRanges := nRanges
    nBeams := nBeams
    imageOffset := imageOffset
    imageSize := imageSize
    dataSize := dataSize }

/-- The minimal frame of the scenarios: 2 range bins of 4 beams, 1-byte samples, no gain, 8
bytes of image data right after the ping header and the bearings. -/
def minimalFrame : Frame := sampleFrame 200 false 2 4 130 8 .dataSize8Bit

/-- The gain scenario: 3 range bins of 5 beams, 2-byte samples, gain present, 42 bytes of image
data starting one byte after the ping header. -/
def gainFrame : Frame := sampleFrame 200 true 3 5 123 42 .dataSize16Bit

/-- The gain scenario with the image data declared to start exactly at the end of the ping
header. -/
def offsetAtHeaderFrame : Frame := sampleFrame 200 true 3 5 122 42 .dataSize16Bit

/-- A frame of 125 bytes that declares 4 beams and 8 bytes of image data at offset 123: the
bearings would end at byte 130 and the image data at byte 131. -/
def overrunFrame : Frame := sampleFrame 125 false 2 4 123 8 .dataSize8Bit

/-- The object the constructor builds from `minimalFrame`: 4 bearings after the 122-byte ping
header, no gains, and an image of 2 rows of 4 one-byte samples with stride 4 at offset 130. -/
def minimalPing : SimplePingResult :=
  { frame := minimalFrame
    flagsSendGain := false
    bearings := ⟨122, 4⟩
    gains := ⟨0, 0, 0, 0⟩
    image := ⟨130, 8, 2, 4, 1, 4, 0⟩ }

/-- The object the constructor builds from `overrunFrame`. -/
def overrunPing : SimplePingResult :=
  { frame := overrunFrame
    flagsSendGain := false
    bearings := ⟨122, 4⟩
    gains := ⟨0, 0, 0, 0⟩
    image := ⟨123, 8, 2, 4, 1, 4, 0⟩ }

/-- An empty buffer: no byte to read a field from. -/
def emptyFrame : Frame := sampleFrame 0 false 0 0 0 0 .dataSize8Bit

/-- A buffer of 50 bytes: it holds the common header and the `flags` byte, not the fields of
the ping header (which no step reads before the assertion). -/
def shortFrame : Frame := sampleFrame 50 false 0 0 0 0 .dataSize8Bit

/-- A buffer of 120 bytes: it holds every field that the constructor and `valid()` read (they
end at byte 118) but not the whole 122-byte ping header.  It declares no beam, no range bin and
an empty image at offset 123. -/
def nearFrame : Frame := sampleFrame 120 false 0 0 123 0 .dataSize8Bit

/-- The object the constructor builds from `nearFrame` when `NDEBUG` is defined. -/
def nearPing : SimplePingResult :=
  { frame := nearFrame
    flagsSendGain := false
    bearings := ⟨122, 0⟩
    gains := ⟨0, 0, 0, 0⟩
    image := ⟨123, 0, 0, 0, 1, 0, 0⟩ }

/-- The minimal frame with a corrupted magic identifier. -/
def badMagicFrame : Frame := { minimalFrame with oculusId := 0x4f54 }

/-- The minimal frame with a corrupted magic identifier, declaring a packet of 300 bytes in
its buffer of 200. -/
def badMagicCutFrame : Frame := { minimalFrame with oculusId := 0x4f54, packetSize := 300 }

/-- The 50-byte buffer with a corrupted magic identifier. -/
def badMagicShortFrame : Frame := { shortFrame with oculusId := 0x4f54 }

/-- A frame with a data-size field outside the known set, no gain, 2 range bins and no beam:
123 bytes, an empty image. -/
def noBeamsFrame : Frame := sampleFrame 123 false 2 0 123 0 (.other 7)

/-- A frame with a data-size field outside the known set, gain, 3 range bins and no beam: the
image is the three 4-byte gains, 12 bytes at offset 123. -/
def noBeamsGainFrame : Frame := sampleFrame 135 true 3 0 123 12 (.other 7)

/-- A frame of the layout with 4-byte counts: 65536 range bins of 65536 beams, 1-byte samples,
no gain.  The 131072 bytes of bearings follow the 126-byte ping header, and the frame declares
an empty image at offset 131198, the end of its buffer.  The pixel count `65536 × 65536 =
2 ^ 32` wraps to 0 in 32 bits. -/
def wrappedFrame : Frame := sampleFrame 131198 false 65536 65536 131198 0 .dataSize8Bit

/-- The object the constructor builds from `wrappedFrame`. -/
def wrappedPing : SimplePingResult :=
  { frame := wrappedFrame
    flagsSendGain := false
    bearings := ⟨126, 65536⟩
    gains := ⟨0, 0, 0, 0⟩
    image := ⟨131198, 0, 65536, 65536, 1, 65536, 0⟩ }

/-- A complete frame of `65535 × 32769 = 2147516415` one-byte pixels, a count of `2 ^ 31` or
more: 65538 bytes of bearings after the 122-byte ping header, then the image at offset 65660,
in a buffer of `65660 + 2147516415` bytes. -/
def hugeFrame : Frame :=
  sampleFrame 2147582075 false 65535 32769 65660 2147516415 .dataSize8Bit

/-- A complete frame with gain, one range bin of 20000 beams and 4-byte samples: 40000 bytes of
bearings, then at offset 40122 one row of `4 × 20000 + 4 = 80004` bytes. -/
def wideFrame : Frame := sampleFrame 120126 true 1 20000 40122 80004 .dataSize32Bit

/-- The object the constructor builds from `wideFrame`: the stride is `80004 mod 65536`. -/
def widePing : SimplePingResult :=
  { frame := wideFrame
    flagsSendGain := true
    bearings := ⟨122, 20000⟩
    gains := ⟨40122, 80004, 14468, 1⟩
    image := ⟨40122, 80004, 1, 20000, 4, 14468, 4⟩ }

/-- The frame `wideFrame` with two range bins: two rows of 80004 bytes at offset 40122, the
second one starting at byte 120126. -/
def wideGainFrame : Frame := sampleFrame 200130 true 2 20000 40122 160008 .dataSize32Bit

/-- The object the constructor builds from `wideGainFrame`. -/
def wideGainPing : SimplePingResult :=
  { frame := wideGainFrame
    flagsSendGain := true
    bearings := ⟨122, 20000⟩
    gains := ⟨40122, 160008, 14468, 2⟩
    image := ⟨40122, 160008, 2, 20000, 4, 14468, 4⟩ }

/-- A complete frame with gain, 2 range bins of 32767 beams and 2-byte samples: 65534 bytes of
bearings, then at offset 65656 two rows of `2 × 32767 + 4 = 65538` bytes. -/
def overlapFrame : Frame := sampleFrame 196732 true 2 32767 65656 131076 .dataSize16Bit

/-- The object the constructor builds from `overlapFrame`: the stride is
`65538 mod 65536 = 2`. -/
def overlapPing : SimplePingResult :=
  { frame := overlapFrame
    flagsSendGain := true
    bearings := ⟨122, 32767⟩
    gains := ⟨65656, 131076, 2, 2⟩
    image := ⟨65656, 131076, 2, 32767, 2, 2, 4⟩ }

set_option maxRecDepth 8000

/-! ## General facts -/

theorem sampleFrame_size (len : Nat) (g : Bool) (r b o s : Nat) (d : DataSizeType) :
    (sampleFrame len g r b o s d).size = len := by
  simp [sampleFrame, Frame.size]

/-- The frames `valid()` accepts are those that pass its five checks. -/
theorem valid_returned_true_iff (L : Layout) (f : Frame) :
    SimplePingResult.valid L f = .returned true ↔
      L.sizeofOculusMessageHeader ≤ f.size ∧ f.packetSize ≤ f.size ∧
      f.oculusId = L.checkId ∧ f.imageSize = expectedSize L f ∧
      L.sizeofOculusSimplePingResult < f.imageOffset := by
  unfold SimplePingResult.valid MessageHeader.valid
  by_cases h1 : f.size < L.sizeofOculusMessageHeader
  · simp [h1]
  by_cases h2 : f.size < f.packetSize
  · simp [h1, h2]
  by_cases h3 : f.oculusId = L.checkId
  · by_cases h4 : f.imageSize = expectedSize L f
    · by_cases h5 : L.sizeofOculusSimplePingResult < f.imageOffset
      · simp [h1, h2, h3, ← h4, h5]; omega
      · simp [h1, h2, h3, ← h4, h5]
    · simp [h1, h2, h3, h4]
  · simp [h1, h2, h3]

theorem valid_false_of_imageSize_ne (L : Layout) (f : Frame)
    (h : f.imageSize ≠ expectedSize L f) : SimplePingResult.valid L f = .returned false := by
  unfold SimplePingResult.valid
  split_ifs <;> rfl

/-- The function `verdict` refines `valid()`: same stops, and the `bool` of the verdict. -/
theorem valid_eq_verdict (L : Layout) (f : Frame) :
    SimplePingResult.valid L f =
      (match SimplePingResult.verdict L f with
        | .returned v => .returned v.toBool
        | .fatal why => .fatal why) := by
  unfold SimplePingResult.valid SimplePingResult.verdict
  split_ifs <;> rfl

/-- An object the constructor returns is the one of `views`. -/
theorem construct_eq_views (L : Layout) (f : Frame) (p : SimplePingResult)
    (hc : SimplePingResult.construct L f = .returned p) : p = SimplePingResult.views L f := by
  unfold SimplePingResult.construct at hc
  split_ifs at hc
  cases hc
  rfl

/-- What the constructor builds, member by member. -/
theorem construct_returned (L : Layout) (f : Frame) (p : SimplePingResult)
    (hc : SimplePingResult.construct L f = .returned p) :
    L.flagsOffset < f.size ∧ p.frame = f ∧
      p.bearings.data = L.sizeofOculusSimplePingResult ∧ p.bearings.nBeams = f.nBeams ∧
      p.image.data = f.imageOffset ∧ p.image.imageSize = f.imageSize ∧
      p.image.nRanges = f.nRanges ∧ p.image.nBeams = f.nBeams ∧
      p.image.dataSize = SizeOfDataSize L f.dataSize ∧
      p.image.stride
        = (if f.sendGain then strideBytes L f 4 else SizeOfDataSize L f.dataSize * f.nBeams) ∧
      p.image.offset = (if f.sendGain then 4 else 0) ∧
      p.gains = (if f.sendGain then ⟨f.imageOffset, f.imageSize, strideBytes L f 4, f.nRanges⟩
        else GainData.empty) := by
  have hp := construct_eq_views L f p hc
  have hfl : L.flagsOffset < f.size := by
    unfold SimplePingResult.construct at hc
    split_ifs at hc with h1
    omega
  subst hp
  unfold SimplePingResult.views
  cases hg : f.sendGain <;> simp [hfl, ImageData.contiguous]

/-- A buffer that holds the ping header is constructed from, whatever the build. -/
theorem construct_of_size (L : Layout) (f : Frame) (h1 : L.flagsOffset < f.size)
    (h2 : L.sizeofOculusSimplePingResult ≤ f.size) (h3 : L.pingFieldsEnd ≤ f.size) :
    SimplePingResult.construct L f = .returned (SimplePingResult.views L f) := by
  unfold SimplePingResult.construct
  have a1 : ¬ f.size ≤ L.flagsOffset := by omega
  have a2 : ¬ (L.ndebug = false ∧ f.size < L.sizeofOculusSimplePingResult) := by
    intro h; omega
  have a3 : ¬ f.size < L.pingFieldsEnd := by omega
  simp only [a1, a2, a3, if_false]

theorem decode_of_construct (L : Layout) (f : Frame) (p : SimplePingResult)
    (hc : SimplePingResult.construct L f = .returned p) :
    SimplePingResult.decode L f = SimplePingResult.valid L f := by
  have hp := (construct_returned L f p hc).2.1
  unfold SimplePingResult.decode
  rw [hc]
  simp only [hp]

/-- Construction from a sample frame long enough for the ping header. -/
theorem sampleFrame_construct (L : Layout) (len : Nat) (g : Bool) (r b o s : Nat)
    (d : DataSizeType) (h1 : L.flagsOffset < len) (h2 : L.sizeofOculusSimplePingResult ≤ len)
    (h3 : L.pingFieldsEnd ≤ len) :
    SimplePingResult.construct L (sampleFrame len g r b o s d)
      = .returned (SimplePingResult.views L (sampleFrame len g r b o s d)) := by
  apply construct_of_size <;> rw [sampleFrame_size] <;> assumption

/-- Acceptance of a sample frame, from the four tests that do not involve its bytes. -/
theorem sampleFrame_valid (L : Layout) (len : Nat) (g : Bool) (r b o s : Nat)
    (d : DataSizeType) (h1 : L.sizeofOculusMessageHeader ≤ len) (h3 : L.checkId = 0x4f53)
    (h4 : s = expectedSize L (sampleFrame len g r b o s d))
    (h5 : L.sizeofOculusSimplePingResult < o) :
    SimplePingResult.valid L (sampleFrame len g r b o s d) = .returned true := by
  rw [valid_returned_true_iff, sampleFrame_size]
  exact ⟨h1, Nat.le_refl _, h3.symm, h4, h5⟩

theorem wrappedFrame_construct :
    SimplePingResult.construct wordLayout wrappedFrame = .returned wrappedPing :=
  (sampleFrame_construct wordLayout _ _ _ _ _ _ _ (by decide) (by decide) (by decide)).trans
    (congrArg Outcome.returned rfl)

theorem wrappedFrame_valid :
    SimplePingResult.valid wordLayout wrappedFrame = .returned true :=
  sampleFrame_valid wordLayout _ _ _ _ _ _ _ (by decide) (by decide) (by decide) (by decide)

theorem wideFrame_construct :
    SimplePingResult.construct sampleLayout wideFrame = .returned widePing :=
  (sampleFrame_construct sampleLayout _ _ _ _ _ _ _ (by decide) (by decide) (by decide)).trans
    (congrArg Outcome.returned rfl)

theorem wideFrame_valid :
    SimplePingResult.valid sampleLayout wideFrame = .returned true :=
  sampleFrame_valid sampleLayout _ _ _ _ _ _ _ (by decide) (by decide) (by decide) (by decide)

theorem wideGainFrame_construct :
    SimplePingResult.construct sampleLayout wideGainFrame = .returned wideGainPing :=
  (sampleFrame_construct sampleLayout _ _ _ _ _ _ _ (by decide) (by decide) (by decide)).trans
    (congrArg Outcome.returned rfl)

theorem wideGainFrame_valid :
    SimplePingResult.valid sampleLayout wideGainFrame = .returned true :=
  sampleFrame_valid sampleLayout _ _ _ _ _ _ _ (by decide) (by decide) (by decide) (by decide)

theorem overlapFrame_construct :
    SimplePingResult.construct sampleLayout overlapFrame = .returned overlapPing :=
  (sampleFrame_construct sampleLayout _ _ _ _ _ _ _ (by decide) (by decide) (by decide)).trans
    (congrArg Outcome.returned rfl)

theorem overlapFrame_valid :
    SimplePingResult.valid sampleLayout overlapFrame = .returned true :=
  sampleFrame_valid sampleLayout _ _ _ _ _ _ _ (by decide) (by decide) (by decide) (by decide)

theorem hugeFrame_construct :
    SimplePingResult.construct sampleLayout hugeFrame
      = .returned (SimplePingResult.views sampleLayout hugeFrame) :=
  sampleFrame_construct sampleLayout _ _ _ _ _ _ _ (by decide) (by decide) (by decide)

theorem hugeFrame_valid :
    SimplePingResult.valid sampleLayout hugeFrame = .returned false :=
  valid_false_of_imageSize_ne _ _ (by decide)

theorem hugeFrame_size : hugeFrame.size = 2147582075 := sampleFrame_size _ _ _ _ _ _ _

theorem wideGainFrame_size : wideGainFrame.size = 200130 := sampleFrame_size _ _ _ _ _ _ _

theorem overlapFrame_size : overlapFrame.size = 196732 := sampleFrame_size _ _ _ _ _ _ _

/-- A frame without beams has no sample: its expected size is that of the gains alone,
whatever the sample width. -/
theorem expectedSize_noBeams (L : Layout) (f : Frame) (hr : IsU32 f.nRanges)
    (hb : f.nBeams = 0) : expectedSize L f = (if f.sendGain then 4 * f.nRanges else 0) := by
  unfold IsU32 at hr
  have hn : numPixels f = 0 := by
    unfold numPixels toInt32
    rw [hb]
    simp
  unfold expectedSize
  rw [hn]
  cases f.sendGain <;> simp [toSizeT]
  omega

/-! ## C1: the declared image size -/

/-- C1, the code at the failing input: `wrappedFrame` has `nRanges = nBeams = 65536`, so that
`rowStrideBytes × nRanges = 65536 × 65536 = 2 ^ 32`, and declares `imageSize = 0`.  The
32-bit product of line 88 wraps, `num_pixels` is 0, `expected_size` is 0, and `valid()`
returns true: a frame whose `imageSize` differs from the exact value is accepted. -/
theorem valid_accepts_wrapped_imageSize :
    wrappedFrame.WellTyped ∧
      numPixels wrappedFrame = 0 ∧ expectedSize wordLayout wrappedFrame = 0 ∧
      SimplePingResult.valid wordLayout wrappedFrame = .returned true ∧
      SimplePingResult.decode wordLayout wrappedFrame = .returned true ∧
      wrappedFrame.imageSize = 0 ∧
      specRowStrideBytes wordLayout wrappedFrame * wrappedFrame.nRanges = 2 ^ 32 ∧
      wrappedFrame.imageSize
        ≠ specRowStrideBytes wordLayout wrappedFrame * wrappedFrame.nRanges :=
  ⟨by decide, by decide, by decide, wrappedFrame_valid,
    (decode_of_construct _ _ _ wrappedFrame_construct).trans wrappedFrame_valid,
    by decide, by decide, by decide⟩

/-! ## C2: the regions of the views -/

/-- C2, as the code has it: for every frame `valid()` accepts, the buffer is at least as long
as the common header and as the declared packet size, and the image data starts after the ping
header; the bearing region and the image region of the constructed views lie within the buffer
whenever the declared packet size covers them. -/
theorem valid_regions_within_packet (L : Layout) (f : Frame) (p : SimplePingResult)
    (hv : SimplePingResult.valid L f = .returned true)
    (hc : SimplePingResult.construct L f = .returned p) :
    L.sizeofOculusMessageHeader ≤ f.size ∧ f.packetSize ≤ f.size ∧
      L.sizeofOculusSimplePingResult < f.imageOffset ∧
      p.bearings.data = L.sizeofOculusSimplePingResult ∧ p.bearings.nBeams = f.nBeams ∧
      p.image.data = f.imageOffset ∧ p.image.imageSize = f.imageSize ∧
      (L.sizeofOculusSimplePingResult + 2 * f.nBeams ≤ f.packetSize →
        p.bearings.data + 2 * p.bearings.nBeams ≤ f.size) ∧
      (f.imageOffset + f.imageSize ≤ f.packetSize →
        p.image.data + p.image.imageSize ≤ f.size) := by
  rw [valid_returned_true_iff] at hv
  obtain ⟨h1, h2, -, -, h5⟩ := hv
  obtain ⟨-, -, hb, hn, hd, hi, -⟩ := construct_returned L f p hc
  refine ⟨h1, h2, h5, hb, hn, hd, hi, ?_, ?_⟩ <;> intro h <;> omega

/-- Witness of C2: the minimal frame, 200 bytes long, with bearings in `[122, 130)` and image
data in `[130, 138)`. -/
theorem valid_regions_within_packet_witness :
    SimplePingResult.valid sampleLayout minimalFrame = .returned true ∧
      SimplePingResult.construct sampleLayout minimalFrame = .returned minimalPing ∧
      minimalPing.bearings.data + 2 * minimalPing.bearings.nBeams ≤ minimalFrame.size ∧
      minimalPing.image.data + minimalPing.image.imageSize ≤ minimalFrame.size :=
  have h := valid_regions_within_packet sampleLayout minimalFrame minimalPing (by decide)
    (by decide)
  ⟨by decide, by decide, h.2.2.2.2.2.2.2.1 (by decide), h.2.2.2.2.2.2.2.2 (by decide)⟩

/-- Counterexample to C2 as stated: a 125-byte frame is accepted by `valid()` although its
bearing region `[122, 130)` and its image region `[123, 131)` both run past the end of the
buffer. -/
theorem valid_accepts_overrun :
    SimplePingResult.valid sampleLayout overrunFrame = .returned true ∧
      SimplePingResult.construct sampleLayout overrunFrame = .returned overrunPing ∧
      overrunFrame.size = 125 ∧
      overrunPing.bearings.data + 2 * overrunPing.bearings.nBeams = 130 ∧
      overrunPing.image.data + overrunPing.image.imageSize = 131 ∧
      ¬ overrunPing.bearings.data + 2 * overrunPing.bearings.nBeams ≤ overrunFrame.size ∧
      ¬ overrunPing.image.data + overrunPing.image.imageSize ≤ overrunFrame.size := by
  decide

/-! ## C3: buffers shorter than the ping header -/

/-- C3, as the code has it: for every buffer shorter than `sizeof(OculusSimplePingResult)`
that holds the `flags` byte read at line 38, in a build with assertions (`NDEBUG` not defined),
decoding stops at the assertion of the constructor: no rejection value is returned, no
bearing, gain or image view is built, and `valid()` is not reached. -/
theorem construct_asserts_on_short_buffer (L : Layout) (f : Frame)
    (hdebug : L.ndebug = false) (hflags : L.flagsOffset < f.size)
    (hshort : f.size < L.sizeofOculusSimplePingResult) :
    SimplePingResult.construct L f = .fatal .assertFailed ∧
      SimplePingResult.decode L f = .fatal .assertFailed := by
  have hc : SimplePingResult.construct L f = .fatal .assertFailed := by
    unfold SimplePingResult.construct
    have a1 : ¬ f.size ≤ L.flagsOffset := by omega
    simp [a1, hdebug, hshort]
  refine ⟨hc, ?_⟩
  unfold SimplePingResult.decode
  rw [hc]

/-- Witness of C3: a buffer of 50 bytes. -/
theorem construct_asserts_on_short_buffer_witness :
    sampleLayout.ndebug = false ∧ sampleLayout.flagsOffset < shortFrame.size ∧
      shortFrame.size < sampleLayout.sizeofOculusSimplePingResult ∧
      SimplePingResult.construct sampleLayout shortFrame = .fatal .assertFailed ∧
      SimplePingResult.decode sampleLayout shortFrame = .fatal .assertFailed :=
  ⟨by decide, by decide, by decide,
    construct_asserts_on_short_buffer sampleLayout shortFrame (by decide) (by decide)
      (by decide)⟩

/-- Counterexample to C3 as stated, on three buffers shorter than the 122-byte ping header.
On the empty buffer the constructor reads `flags` past the end of the buffer (line 38) before
it reaches its assertion.  On a buffer of 50 bytes it stops at the assertion, which is not a
returned rejection.  And in a build with `NDEBUG`, a buffer of 120 bytes, which holds every
field that is read, is constructed from and accepted by `valid()`. -/
theorem decode_short_buffer_not_rejected :
    (emptyFrame.size = 0 ∧
        SimplePingResult.decode sampleLayout emptyFrame = .fatal .readPastEnd) ∧
      (shortFrame.size = 50 ∧
        SimplePingResult.decode sampleLayout shortFrame = .fatal .assertFailed ∧
        SimplePingResult.decode sampleLayout shortFrame ≠ .returned false) ∧
      (nearFrame.size = 120 ∧
        nearFrame.size < releaseLayout.sizeofOculusSimplePingResult ∧
        SimplePingResult.construct releaseLayout nearFrame = .returned nearPing ∧
        SimplePingResult.decode releaseLayout nearFrame = .returned true) := by
  decide

/-! ## C4: the magic identifier -/

/-- C4, as the code has it: for every frame whose magic identifier differs from the protocol
constant, `valid()` returns false whatever the other fields and whatever the length of the
buffer.  The length tests come first: the rejection is `BadHeader` when the buffer is at least
as long as the common header and as the declared packet size, and `TooShort` when it is
shorter.  Whenever an object is constructed from the frame, decoding returns false. -/
theorem valid_rejects_bad_magic (L : Layout) (f : Frame) (hmagic : f.oculusId ≠ L.checkId) :
    SimplePingResult.valid L f = .returned false ∧
      (L.sizeofOculusMessageHeader ≤ f.size → f.packetSize ≤ f.size →
        SimplePingResult.verdict L f = .returned .badHeader) ∧
      (f.size < L.sizeofOculusMessageHeader ∨ f.size < f.packetSize →
        SimplePingResult.verdict L f = .returned .tooShort) ∧
      (∀ p, SimplePingResult.construct L f = .returned p →
        SimplePingResult.decode L f = .returned false) := by
  have hv : SimplePingResult.valid L f = .returned false := by
    unfold SimplePingResult.valid MessageHeader.valid
    by_cases h1 : f.size < L.sizeofOculusMessageHeader
    · simp [h1]
    by_cases h2 : f.size < f.packetSize
    · simp [h1, h2]
    simp [h1, h2, hmagic]
  refine ⟨hv, ?_, ?_, ?_⟩
  · intro h1 h2
    have a1 : ¬ f.size < L.sizeofOculusMessageHeader := by omega
    have a2 : ¬ f.size < f.packetSize := by omega
    unfold SimplePingResult.verdict MessageHeader.valid
    simp [a1, a2, hmagic]
  · intro h
    unfold SimplePingResult.verdict
    by_cases h1 : f.size < L.sizeofOculusMessageHeader
    · simp [h1]
    · have h2 : f.size < f.packetSize := by tauto
      simp [h1, h2]
  · intro p hc
    rw [decode_of_construct L f p hc]
    exact hv

/-- Witness of C4: the minimal frame with its magic identifier corrupted is rejected with
`BadHeader`. -/
theorem valid_rejects_bad_magic_witness :
    badMagicFrame.oculusId ≠ sampleLayout.checkId ∧
      SimplePingResult.valid sampleLayout badMagicFrame = .returned false ∧
      SimplePingResult.verdict sampleLayout badMagicFrame = .returned .badHeader ∧
      SimplePingResult.decode sampleLayout badMagicFrame = .returned false :=
  have h := valid_rejects_bad_magic sampleLayout badMagicFrame (by decide)
  ⟨by decide, h.1, h.2.1 (by decide) (by decide), by decide⟩

/-- Counterexample to C4 as stated, on two frames with a corrupted magic identifier.  The
first declares a packet of 300 bytes in a buffer of 200: the length test of line 80 rejects it
before the header is looked at, so the rejection is `TooShort`, not `BadHeader`.  The second is
a buffer of 50 bytes: decoding stops at the assertion of the constructor and no rejection is
returned. -/
theorem bad_magic_not_always_badHeader :
    (badMagicCutFrame.oculusId ≠ sampleLayout.checkId ∧
        SimplePingResult.verdict sampleLayout badMagicCutFrame = .returned .tooShort ∧
        SimplePingResult.verdict sampleLayout badMagicCutFrame ≠ .returned .badHeader) ∧
      (badMagicShortFrame.oculusId ≠ sampleLayout.checkId ∧
        SimplePingResult.decode sampleLayout badMagicShortFrame = .fatal .assertFailed) := by
  decide

/-! ## C5: the image offset -/

/-- C5, as the code has it: for every frame that passes the length, header and image-size
checks but whose `imageOffset` is at most `sizeof(OculusSimplePingResult)`, `valid()` does not
return: the `CHECK` on the offset fails, which is fatal. -/
theorem valid_check_fails_on_low_offset (L : Layout) (f : Frame)
    (hlen : L.sizeofOculusMessageHeader ≤ f.size) (hpkt : f.packetSize ≤ f.size)
    (hmagic : MessageHeader.valid L f = true) (hsize : f.imageSize = expectedSize L f)
    (hoff : f.imageOffset ≤ L.sizeofOculusSimplePingResult) :
    SimplePingResult.valid L f = .fatal .checkFailed := by
  unfold SimplePingResult.valid
  have h1 : ¬ f.size < L.sizeofOculusMessageHeader := by omega
  have h2 : ¬ f.size < f.packetSize := by omega
  have h5 : ¬ f.imageOffset > L.sizeofOculusSimplePingResult := by omega
  simp [h1, h2, hmagic, ← hsize, h5]

/-- Witness of C5: the gain scenario with `imageOffset` equal to the size of the ping header. -/
theorem valid_check_fails_on_low_offset_witness :
    sampleLayout.sizeofOculusMessageHeader ≤ offsetAtHeaderFrame.size ∧
      offsetAtHeaderFrame.packetSize ≤ offsetAtHeaderFrame.size ∧
      MessageHeader.valid sampleLayout offsetAtHeaderFrame = true ∧
      offsetAtHeaderFrame.imageSize = expectedSize sampleLayout offsetAtHeaderFrame ∧
      offsetAtHeaderFrame.imageOffset ≤ sampleLayout.sizeofOculusSimplePingResult ∧
      SimplePingResult.valid sampleLayout offsetAtHeaderFrame = .fatal .checkFailed :=
  ⟨by decide, by decide, by decide, by decide, by decide,
    valid_check_fails_on_low_offset sampleLayout offsetAtHeaderFrame (by decide) (by decide)
      (by decide) (by decide) (by decide)⟩

/-- Counterexample to C5 as stated: the gain scenario with `imageOffset = 122 =
sizeof(OculusSimplePingResult)` passes the length, header and image-size checks, and the outcome
of `valid()` is the failed `CHECK`, not a returned `false`. -/
theorem valid_low_offset_is_fatal :
    SimplePingResult.valid sampleLayout gainFrame = .returned true ∧
      offsetAtHeaderFrame = { gainFrame with imageOffset := 122 } ∧
      offsetAtHeaderFrame.imageOffset = sampleLayout.sizeofOculusSimplePingResult ∧
      SimplePingResult.valid sampleLayout offsetAtHeaderFrame = .fatal .checkFailed ∧
      SimplePingResult.valid sampleLayout offsetAtHeaderFrame ≠ .returned false := by
  decide

/-! ## C6: unknown encodings -/

/-- C6, as the code has it: `valid()` has no check of the encoding.  For a frame whose
data-size field is not a known encoding the sample width is whatever `SizeOfDataSize` yields
for that value; the frame is accepted exactly when the length, header and offset checks pass
and its `imageSize` equals the expected size computed with that width, and it is rejected when
the two differ.  For a frame that declares no beam the expected size is 0 without gain and
`4 × nRanges` with gain, whatever that width. -/
theorem valid_unknown_encoding (L : Layout) (f : Frame) (hunk : f.dataSize.known = false) :
    SizeOfDataSize L f.dataSize = L.unknownDataSizeBytes ∧
      (SimplePingResult.valid L f = .returned true ↔
        L.sizeofOculusMessageHeader ≤ f.size ∧ f.packetSize ≤ f.size ∧
        f.oculusId = L.checkId ∧ f.imageSize = expectedSize L f ∧
        L.sizeofOculusSimplePingResult < f.imageOffset) ∧
      (f.imageSize ≠ expectedSize L f → SimplePingResult.valid L f = .returned false) ∧
      (IsU32 f.nRanges → f.nBeams = 0 →
        expectedSize L f = (if f.sendGain then 4 * f.nRanges else 0)) := by
  refine ⟨?_, valid_returned_true_iff L f, valid_false_of_imageSize_ne L f,
    expectedSize_noBeams L f⟩
  cases hd : f.dataSize <;> simp_all [SizeOfDataSize, DataSizeType.known]

/-- Witness of C6: with an unknown encoding, gain, 3 range bins and no beam, a declared image
size of 12 is accepted and a declared image size of 42 is rejected (here with a width of 3 for
the unknown encoding). -/
theorem valid_unknown_encoding_witness :
    noBeamsGainFrame.dataSize.known = false ∧
      expectedSize (unknownLayout 3) noBeamsGainFrame = 12 ∧
      SimplePingResult.valid (unknownLayout 3) noBeamsGainFrame = .returned true ∧
      SimplePingResult.valid (unknownLayout 3) { noBeamsGainFrame with imageSize := 42 }
        = .returned false :=
  have h := valid_unknown_encoding (unknownLayout 3) noBeamsGainFrame (by decide)
  ⟨by decide, (h.2.2.2 (by decide) (by decide)).trans (by decide),
    h.2.1.2 (by decide),
    (valid_unknown_encoding (unknownLayout 3) { noBeamsGainFrame with imageSize := 42 }
      (by decide)).2.2.1 (by decide)⟩

/-- Counterexample to C6 as stated: two frames whose data-size field is outside the known set
are constructed from and accepted by `valid()`, whatever width `w` the helper `SizeOfDataSize`
yields for that value.  Both declare no beam; one has no gain and declares an image size of 0,
the other has gain and declares `4 × nRanges = 12`. -/
theorem valid_accepts_unknown_encoding :
    (noBeamsFrame.dataSize.known = false ∧ noBeamsFrame.sendGain = false ∧
        noBeamsFrame.imageSize = 0 ∧
        ∀ w, SimplePingResult.decode (unknownLayout w) noBeamsFrame = .returned true) ∧
      (noBeamsGainFrame.dataSize.known = false ∧ noBeamsGainFrame.sendGain = true ∧
        noBeamsGainFrame.imageSize = 4 * noBeamsGainFrame.nRanges ∧
        ∀ w, SimplePingResult.decode (unknownLayout w) noBeamsGainFrame = .returned true) := by
  refine ⟨⟨by decide, by decide, by decide, fun w => ?_⟩,
    ⟨by decide, by decide, by decide, fun w => ?_⟩⟩
  · have hc := sampleFrame_construct (unknownLayout w) 123 false 2 0 123 0 (.other 7)
      (by simp [unknownLayout, sampleLayout]) (by simp [unknownLayout, sampleLayout])
      (by simp [unknownLayout, sampleLayout])
    rw [show noBeamsFrame = sampleFrame 123 false 2 0 123 0 (.other 7) from rfl,
      decode_of_construct _ _ _ hc]
    refine sampleFrame_valid _ _ _ _ _ _ _ _ (by simp [unknownLayout, sampleLayout]) rfl ?_
      (by simp [unknownLayout, sampleLayout])
    rw [expectedSize_noBeams _ _ (by decide) rfl]
    rfl
  · have hc := sampleFrame_construct (unknownLayout w) 135 true 3 0 123 12 (.other 7)
      (by simp [unknownLayout, sampleLayout]) (by simp [unknownLayout, sampleLayout])
      (by simp [unknownLayout, sampleLayout])
    rw [show noBeamsGainFrame = sampleFrame 135 true 3 0 123 12 (.other 7) from rfl,
      decode_of_construct _ _ _ hc]
    refine sampleFrame_valid _ _ _ _ _ _ _ _ (by simp [unknownLayout, sampleLayout]) rfl ?_
      (by simp [unknownLayout, sampleLayout])
    rw [expectedSize_noBeams _ _ (by decide) rfl]
    rfl

/-! ## C7: well-formed frames -/

/-- C7, the code at the failing input: `hugeFrame` meets every condition of the claim (the
buffer is as long as the declared packet, the header is valid, the samples are 1 byte wide,
the declared `imageSize` is `1 × 65535 × 32769 = 2147516415`, and the image starts after the
ping header), and an object is constructed from it.  The pixel count does not fit an `int`:
`num_pixels` is `-2147450881`, which becomes a `size_t` of `2 ^ 64 - 2147450881`, and `valid()`
returns false, with 16-bit counts (`sampleLayout`) as with 4-byte counts (`wordLayout`). -/
theorem valid_rejects_well_formed :
    hugeFrame.WellTyped ∧ hugeFrame.packetSize ≤ hugeFrame.size ∧
      MessageHeader.valid sampleLayout hugeFrame = true ∧ hugeFrame.dataSize.known = true ∧
      hugeFrame.imageSize = SizeOfDataSize sampleLayout hugeFrame.dataSize * hugeFrame.nRanges
        * hugeFrame.nBeams + (if hugeFrame.sendGain then 4 * hugeFrame.nRanges else 0) ∧
      sampleLayout.sizeofOculusSimplePingResult < hugeFrame.imageOffset ∧
      hugeFrame.imageOffset + hugeFrame.imageSize ≤ hugeFrame.size ∧
      numPixels hugeFrame = -2147450881 ∧
      expectedSize sampleLayout hugeFrame = 2 ^ 64 - 2147450881 ∧
      SimplePingResult.valid sampleLayout hugeFrame = .returned false ∧
      SimplePingResult.decode sampleLayout hugeFrame = .returned false ∧
      SimplePingResult.valid wordLayout hugeFrame = .returned false :=
  ⟨by decide, by rw [hugeFrame_size]; decide, by decide, by decide, by decide, by decide,
    by rw [hugeFrame_size]; decide, by decide, by decide, hugeFrame_valid,
    (decode_of_construct _ _ _ hugeFrame_construct).trans hugeFrame_valid,
    valid_false_of_imageSize_ne _ _ (by decide)⟩

/-! ## C8: the row stride handed to the views -/

/-- C8, the code at the failing input: `wideFrame` has gain, 20000 beams and 4-byte samples,
a row of `4 × 20000 + 4 = 80004` bytes.  It is accepted by `valid()`, and the constructor hands
the image view and the gain view the stride `80004 mod 65536 = 14468`, the value of the
`uint16_t strideBytes` of line 56, with the sample width 4, the beam count 20000 and the row
header 4. -/
theorem construct_stride_truncated :
    wideFrame.WellTyped ∧
      SimplePingResult.valid sampleLayout wideFrame = .returned true ∧
      SimplePingResult.construct sampleLayout wideFrame = .returned widePing ∧
      widePing.image.dataSize = 4 ∧ widePing.image.nBeams = 20000 ∧
      widePing.image.offset = 4 ∧
      widePing.image.stride = 14468 ∧ widePing.gains.stride = 14468 ∧
      widePing.image.dataSize * widePing.image.nBeams + widePing.image.offset = 80004 ∧
      specRowStrideBytes sampleLayout wideFrame = 80004 ∧
      widePing.image.stride
        ≠ widePing.image.dataSize * widePing.image.nBeams + widePing.image.offset :=
  ⟨by decide, wideFrame_valid, wideFrame_construct, by decide, by decide, by decide,
    by decide, by decide, by decide, by decide, by decide⟩

/-! ## C9: the gain view -/

/-- C9, the code at the failing input: `wideGainFrame` has the gain-present flag set and two
rows of 80004 bytes at offset 40122, both inside its buffer of 200130 bytes; image row 1
starts at byte `40122 + 80004 = 120126`.  The frame is accepted by `valid()`, the gain view has
length 2, and its element 1 is placed at byte `40122 + 14468 = 54590`, inside row 0. -/
theorem construct_gains_misplaced :
    wideGainFrame.sendGain = true ∧
      SimplePingResult.valid sampleLayout wideGainFrame = .returned true ∧
      SimplePingResult.construct sampleLayout wideGainFrame = .returned wideGainPing ∧
      wideGainPing.gains.size = wideGainFrame.nRanges ∧
      wideGainPing.gains.position 0 = wideGainFrame.imageOffset ∧
      wideGainPing.gains.position 1 = 54590 ∧
      wideGainFrame.imageOffset + 1 * specRowStrideBytes sampleLayout wideGainFrame = 120126 ∧
      120126 + 4 ≤ wideGainFrame.size ∧
      wideGainPing.gains.position 1
        ≠ wideGainFrame.imageOffset + 1 * specRowStrideBytes sampleLayout wideGainFrame :=
  ⟨by decide, wideGainFrame_valid, wideGainFrame_construct, by decide, by decide, by decide,
    by decide, by rw [wideGainFrame_size]; decide, by decide⟩

/-! ## C10: the samples of the image view -/

/-- C10, the code at the two failing inputs, both accepted by `valid()`.  In `wrappedFrame`
the pixel count wraps to 0 and the declared image region is empty, so the sample `(0, 0)`, the
byte `[131198, 131199)`, lies outside it.  In `overlapFrame`, whose two rows of 65538 bytes
are inside its buffer, the stride is narrowed to 2, and the samples `(0, 1)` and `(1, 0)` are
the same two bytes `[65662, 65664)`. -/
theorem image_samples_outside_or_overlapping :
    (SimplePingResult.valid wordLayout wrappedFrame = .returned true ∧
        SimplePingResult.construct wordLayout wrappedFrame = .returned wrappedPing ∧
        wrappedPing.image.samplePos 0 0 + wrappedPing.image.dataSize = 131199 ∧
        wrappedFrame.imageOffset + wrappedFrame.imageSize = 131198 ∧
        ¬ wrappedPing.image.samplePos 0 0 + wrappedPing.image.dataSize
          ≤ wrappedFrame.imageOffset + wrappedFrame.imageSize) ∧
      (SimplePingResult.valid sampleLayout overlapFrame = .returned true ∧
        SimplePingResult.construct sampleLayout overlapFrame = .returned overlapPing ∧
        overlapFrame.imageOffset + overlapFrame.imageSize ≤ overlapFrame.size ∧
        overlapPing.image.dataSize = 2 ∧
        overlapPing.image.samplePos 0 1 = 65662 ∧ overlapPing.image.samplePos 1 0 = 65662 ∧
        ¬ (overlapPing.image.samplePos 0 1 + overlapPing.image.dataSize
            ≤ overlapPing.image.samplePos 1 0 ∨
          overlapPing.image.samplePos 1 0 + overlapPing.image.dataSize
            ≤ overlapPing.image.samplePos 0 1)) :=
  ⟨⟨wrappedFrame_valid, wrappedFrame_construct, by decide, by decide, by decide⟩,
    ⟨overlapFrame_valid, overlapFrame_construct, by rw [overlapFrame_size]; decide,
      by decide, by decide, by decide, by decide⟩⟩

end liboculus
